import Mathlib

/-!
Shallow embedding of src/lambda_function.py, the rate-limit lambda of the
acs-lambda/rate-limit-ai repository, together with theorems checking the
specification claims against it.

The backing DynamoDB tables are modelled as association lists.  The two
store primitives the source uses are modelled by their DynamoDB semantics:

- update_item with UpdateExpression
  SET invocations = if_not_exists(invocations, :zero) + :inc
  edits the existing item, or, when no item with the given key exists,
  CREATES a new item whose invocations attribute is :zero + :inc and which
  carries no other attribute (in particular no ttl attribute);
- put_item unconditionally writes the given item, replacing any existing
  item with the same key.

I/O faults of the two calls are modelled by two boolean fault flags passed
to the embedded function; a flag set means the corresponding store call
raises instead of taking effect.
-/

/-- An item of the rate-limit table RL_AI: the invocations attribute and the
optional ttl attribute (absent when the item was auto-created by update_item). -/
structure RateLimitRecord where
  invocations : Nat
  ttl : Option Nat
deriving DecidableEq, Repr

/-- The rate-limit table: association list from associated_account to record. -/
abbrev Store : Type := List (String × RateLimitRecord)

/-- Point lookup in the rate-limit table. -/
def Store.find : Store → String → Option RateLimitRecord
  | [], _ => none
  | (k, v) :: rest, key => if k = key then some v else Store.find rest key

/-- Write an item under a key, replacing any existing item with that key. -/
def Store.write : Store → String → RateLimitRecord → Store
  | [], key, v => [(key, v)]
  | (k, w) :: rest, key, v =>
      if k = key then (key, v) :: rest else (k, w) :: Store.write rest key v

/-- DynamoDB update_item at src/lambda_function.py lines 61 to 68, with
UpdateExpression SET invocations = if_not_exists(invocations, :zero) + :inc:
increments invocations of an existing item, leaving its other attributes
(the ttl attribute included) untouched; when the item is absent it creates a
new item with invocations = zero + inc and no ttl attribute. -/
def updateItemIncr (store : Store) (key : String) (z inc : Nat) : Store :=
  match Store.find store key with
  | some r => Store.write store key { r with invocations := r.invocations + inc }
  | none => Store.write store key { invocations := z + inc, ttl := none }

/-- DynamoDB put_item at src/lambda_function.py lines 73 to 79: writes the
item with the given invocations and ttl attributes, replacing any existing
item with that key. -/
def putItem (store : Store) (key : String) (invocations ttl : Nat) : Store :=
  Store.write store key { invocations := invocations, ttl := some ttl }

/-- Result of one call to update_rate_limit_info: the rate-limit table after
the call, the value the Python function returns to its caller (the function
is annotated -> None and has no return statement, so on success it returns
None, modelled as the returned field holding no count), whether the call
raised to its caller, and how many update_item and put_item calls were made. -/
structure UpdateResult where
  store : Store
  returned : Option Nat
  raised : Bool
  updateAttempts : Nat
  putAttempts : Nat
deriving DecidableEq, Repr

/-- Shallow embedding of update_rate_limit_info (src/lambda_function.py lines
47 to 89).  now stands for int(time.time()) and TTL_S for the window length;
updateFaults and putFaults say whether the update_item call and the put_item
call raise an I/O fault.  The source first computes
ttl_timestamp = int(time.time()) + TTL_S, then tries update_item with
:inc = 1 and :zero = 1; its first except Exception clause catches ANY
failure of update_item and answers it with put_item of an item with
invocations = 1 and ttl = ttl_timestamp; a failure of put_item is logged and
re-raised; no further attempt is made. -/
def update_rate_limit_info (store : Store) (clientId : String) (now TTL_S : Nat)
    (updateFaults putFaults : Bool) : UpdateResult :=
  let ttl_timestamp := now + TTL_S
  if updateFaults then
    if putFaults then
      { store := store, returned := none, raised := true,
        updateAttempts := 1, putAttempts := 1 }
    else
      { store := putItem store clientId 1 ttl_timestamp, returned := none,
        raised := false, updateAttempts := 1, putAttempts := 1 }
  else
    { store := updateItemIncr store clientId 1 1, returned := none,
      raised := false, updateAttempts := 1, putAttempts := 0 }

/-- The two except clauses guarding the update_item call inside
update_rate_limit_info: the clause at line 69 (which attempts put_item
creation) and the clause at line 83 (which logs the update error and
re-raises). -/
inductive UpdateHandlerId where
  | createHandler
  | updateErrorHandler
deriving DecidableEq, Repr

/-- A Python exception class, reduced to the one property the dispatch
inspects: whether the class derives from builtins.Exception. -/
structure ExcClass where
  isException : Bool
deriving DecidableEq, Repr

/-- Python dispatch of the inner try statement of update_rate_limit_info
(lines 60 to 85): except clauses are tried in order, and the first clause
whose class matches the raised exception takes it.  Both clauses are
except Exception, so each matches exactly when the raised class derives from
Exception; an exception matching neither clause is unhandled here. -/
def updateExceptDispatch (e : ExcClass) : Option UpdateHandlerId :=
  if e.isException then some UpdateHandlerId.createHandler
  else if e.isException then some UpdateHandlerId.updateErrorHandler
  else none

/-- An item of the Users table: an opaque mapping of account attributes. -/
abbrev AccountItem : Type := List (String × String)

/-- The Users table: association list from id to account item. -/
abbrev UserStore : Type := List (String × AccountItem)

/-- Point lookup in the Users table. -/
def UserStore.find : UserStore → String → Option AccountItem
  | [], _ => none
  | (k, v) :: rest, key => if k = key then some v else UserStore.find rest key

/-- Shallow embedding of get_rate_limit_info (src/lambda_function.py lines 30
to 45).  DynamoDB get_item answers a missing key with a response carrying no
Item member, so response.get(Item, \x7b\x7d) yields the empty mapping; the
source returns that empty mapping as a normal (non-error) result.  A
ClientError (I/O fault, modelled by the fault flag) is logged and re-raised. -/
def get_rate_limit_info (users : UserStore) (clientId : String) (fault : Bool) :
    Except Unit AccountItem :=
  if fault then Except.error ()
  else Except.ok ((UserStore.find users clientId).getD [])

/-- The event after parse_event: a mapping with optional client_id and
session members (dict.get yields None for an absent member). -/
structure ParsedEvent where
  client_id : Option String
  session : Option String
deriving DecidableEq, Repr

/-- Python truthiness of the value of dict.get on a string member: not x is
true exactly when x is None or the empty string. -/
def isFalsy : Option String → Bool
  | none => true
  | some s => s.isEmpty

/-- Outcome of the external call process_rate_limit_request (imported from
rate_limit_logic, outside this file): it returns a result, raises a
LambdaError carrying a status code and message, or raises an unexpected
exception carrying some detail. -/
inductive ProcOutcome where
  | ok (result : String)
  | lambdaError (statusCode : Nat) (message : String)
  | unexpected (detail : String)
deriving DecidableEq, Repr

/-- The response lambda_handler produces, reduced to the fields the claims
inspect: the status code, the message member of the body, and whether
process_rate_limit_request was invoked (every store access of a request is
made inside that call, so processCalled = false means no store read or
mutation happened for the request). -/
structure HandlerResult where
  statusCode : Nat
  message : String
  processCalled : Bool
deriving DecidableEq, Repr

/-- The message of the LambdaError raised at src/lambda_function.py line 99. -/
def missingFieldsMessage : String :=
  "Missing required fields: client_id and session are required."

/-- The fixed body message of the generic 500 response at line 109. -/
def internalErrorMessage : String := "An internal server error occurred."

/-- Shallow embedding of lambda_handler (src/lambda_function.py lines 91 to
109), on an already parsed event.  When client_id or session is falsy the
handler raises LambdaError(400, missingFieldsMessage) before calling
process_rate_limit_request; the except LambdaError clause turns a LambdaError
into a response with its status code and message; the final except Exception
clause logs the unexpected exception and answers with a 500 response whose
message is the fixed string internalErrorMessage, independent of the
exception detail. -/
def lambda_handler (ev : ParsedEvent) (proc : ProcOutcome) : HandlerResult :=
  if isFalsy ev.client_id || isFalsy ev.session then
    { statusCode := 400, message := missingFieldsMessage, processCalled := false }
  else
    match proc with
    | ProcOutcome.ok r =>
        { statusCode := 200, message := r, processCalled := true }
    | ProcOutcome.lambdaError c m =>
        { statusCode := c, message := m, processCalled := true }
    | ProcOutcome.unexpected _ =>
        { statusCode := 500, message := internalErrorMessage, processCalled := true }

/-- C1: the claim says the first increment-or-create call for an absent key
leaves the stored invocation count at exactly 1.  Evaluating the embedded
update_rate_limit_info on an empty store shows the code instead stores 2:
update_item auto-creates the missing item with invocations = :zero + :inc,
and the source binds :zero to 1, so the first call writes invocations = 2. -/
theorem first_call_stored_count_is_two :
    (Store.find (update_rate_limit_info [] "A" 100 60 false false).store "A").map
      RateLimitRecord.invocations = some 2 := by decide

/-- C2: the claim says that when no record exists, increment-or-create
creates the record with invocation_count = 1 and expiry_timestamp equal to
now + ttl_window_seconds.  Evaluating the embedded code at now = 500,
TTL_S = 60 on an empty store: the record actually created carries
invocations = 2 and no ttl attribute at all, because the successful
update_item call auto-creates the item and the put_item branch that would
write invocations = 1 and ttl = 560 is never reached. -/
theorem absent_key_creation_record :
    Store.find (update_rate_limit_info [] "B" 500 60 false false).store "B" =
      some { invocations := 2, ttl := none } := by decide

/-- C3: the claim says every record created carries a ttl attribute, written
once at creation.  Evaluating the embedded code on an empty store: the
record created by the first call (through the update_item auto-creation
path) has no ttl attribute, so the record never expires. -/
theorem auto_created_record_lacks_ttl :
    (Store.find (update_rate_limit_info [] "K" 100 60 false false).store "K").map
      RateLimitRecord.ttl = some none := by decide

/-- C4 counterexample: the claim says the increment-or-create operation
returns the new invocation count to its caller.  At a concrete successful
call the value returned is None while the new stored count is 2, so the
returned value is not the new count. -/
theorem return_value_is_none_not_count :
    (update_rate_limit_info [] "F" 0 60 false false).returned = none ∧
    (Store.find (update_rate_limit_info [] "F" 0 60 false false).store "F").map
      RateLimitRecord.invocations = some 2 := by decide

/-- C4 amended: the increment-or-create operation returns no count at all:
the Python function is annotated -> None and has no return statement, so on
every path the value returned to the caller is None, and the engine cannot
obtain the new count from the return value. -/
theorem update_returns_no_count (store : Store) (clientId : String)
    (now TTL_S : Nat) (uF pF : Bool) :
    (update_rate_limit_info store clientId now TTL_S uF pF).returned = none := by
  unfold update_rate_limit_info
  cases uF <;> cases pF <;> simp

/-- C5: the claim says only a missing target record triggers the creation
attempt, and any other failure of the update call surfaces as an error.
Evaluating the embedded code with an existing record for the key and an I/O
fault on update_item (so the failure is NOT a missing record): the broad
except clause catches the fault and silently runs put_item, which replaces
the existing record (invocations 5) with a fresh one (invocations 1,
ttl 1060), and the call returns without raising. -/
theorem io_fault_triggers_creation :
    update_rate_limit_info [("C", { invocations := 5, ttl := some 900 })] "C"
        1000 60 true false =
      { store := [("C", { invocations := 1, ttl := some 1060 })],
        returned := none, raised := false, updateAttempts := 1,
        putAttempts := 1 } := by decide

/-- C6 counterexample: the claim says that when the creation attempt fails,
the increment is retried exactly once, so a run in which both the update and
the creation fail would make two update_item attempts.  Evaluating the
embedded code with both calls faulting: only one update_item attempt is ever
made, and the operation raises without retrying the increment. -/
theorem no_increment_retry_after_create_failure :
    (update_rate_limit_info [] "D" 0 60 true true).updateAttempts = 1 ∧
    (update_rate_limit_info [] "D" 0 60 true true).raised = true := by decide

/-- C6 amended: the fallback is bounded, but with zero retries rather than
one: on every run the increment is attempted exactly once and the creation
at most once, and when both fail the operation raises to its caller instead
of looping. -/
theorem fallback_bounded (store : Store) (clientId : String) (now TTL_S : Nat)
    (uF pF : Bool) :
    (update_rate_limit_info store clientId now TTL_S uF pF).updateAttempts = 1 ∧
    (update_rate_limit_info store clientId now TTL_S uF pF).putAttempts ≤ 1 ∧
    (uF = true → pF = true →
      (update_rate_limit_info store clientId now TTL_S uF pF).raised = true) := by
  unfold update_rate_limit_info
  cases uF <;> cases pF <;> simp

/-- Witness for the amended C6 theorem at a run in which both store calls
fail. -/
theorem fallback_bounded_witness :
    (update_rate_limit_info [] "E" 0 60 true true).updateAttempts = 1 ∧
    (update_rate_limit_info [] "E" 0 60 true true).raised = true :=
  ⟨(fallback_bounded [] "E" 0 60 true true).1,
   (fallback_bounded [] "E" 0 60 true true).2.2 rfl rfl⟩

/-- C7: whenever client_id or session is absent or empty in the parsed
event, lambda_handler answers with the 400 InvalidRequest response carrying
the descriptive message, and process_rate_limit_request is never invoked, so
no store read or mutation happens for the request; this holds whatever the
external processing call would have done. -/
theorem missing_fields_no_mutation (ev : ParsedEvent) (proc : ProcOutcome)
    (h : isFalsy ev.client_id = true ∨ isFalsy ev.session = true) :
    lambda_handler ev proc =
      { statusCode := 400, message := missingFieldsMessage,
        processCalled := false } := by
  unfold lambda_handler
  rcases h with h | h <;> simp [h]

/-- Witness for C7 at an event with no client_id. -/
theorem missing_fields_no_mutation_witness :
    lambda_handler { client_id := none, session := some "s" }
        (ProcOutcome.ok "r") =
      { statusCode := 400, message := missingFieldsMessage,
        processCalled := false } :=
  missing_fields_no_mutation _ _ (Or.inl rfl)

/-- C8: for a client with no account record, get_rate_limit_info answers
with the empty item as a valid non-error outcome (so the engine can fall
back to defaults), while an I/O fault against the Users table is re-raised
as an error rather than swallowed. -/
theorem account_lookup_missing_and_fault (users : UserStore) (clientId : String)
    (h : UserStore.find users clientId = none) :
    get_rate_limit_info users clientId false = Except.ok [] ∧
    get_rate_limit_info users clientId true = Except.error () := by
  unfold get_rate_limit_info
  simp [h]

/-- Witness for C8 on an empty Users table. -/
theorem account_lookup_missing_and_fault_witness :
    get_rate_limit_info [] "g" false = Except.ok [] ∧
    get_rate_limit_info [] "g" true = Except.error () :=
  account_lookup_missing_and_fault [] "g" rfl

/-- C9: an InvalidRequest (missing client_id or session) produces the 400
client-fault response carrying the descriptive reason message, while an
unexpected failure of the processing call produces the 500 server-fault
response whose message is the fixed string internalErrorMessage; the
response is the same record for every exception detail d, so no detail of
the underlying exception reaches the caller. -/
theorem handler_error_responses (ev : ParsedEvent) (d : String) :
    ((isFalsy ev.client_id || isFalsy ev.session) = true →
      lambda_handler ev (ProcOutcome.unexpected d) =
        { statusCode := 400, message := missingFieldsMessage,
          processCalled := false }) ∧
    ((isFalsy ev.client_id || isFalsy ev.session) = false →
      lambda_handler ev (ProcOutcome.unexpected d) =
        { statusCode := 500, message := internalErrorMessage,
          processCalled := true }) := by
  constructor <;> intro h <;> unfold lambda_handler <;> simp [h]

/-- Witness for C9: one invalid request and one valid request that hits an
unexpected failure. -/
theorem handler_error_responses_witness :
    lambda_handler { client_id := none, session := some "s" }
        (ProcOutcome.unexpected "boom") =
      { statusCode := 400, message := missingFieldsMessage,
        processCalled := false } ∧
    lambda_handler { client_id := some "c", session := some "s" }
        (ProcOutcome.unexpected "boom") =
      { statusCode := 500, message := internalErrorMessage,
        processCalled := true } :=
  ⟨(handler_error_responses { client_id := none, session := some "s" } "boom").1
      rfl,
   (handler_error_responses { client_id := some "c", session := some "s" }
      "boom").2 rfl⟩

/-- C10: the second except clause on the update_item call (the one that logs
the update error and re-raises) is unreachable: every raised exception is
either taken by the first clause (when its class derives from Exception) or
handled by neither clause (when it does not), so dispatch never selects the
second handler. -/
theorem second_update_handler_unreachable (e : ExcClass) :
    updateExceptDispatch e = some UpdateHandlerId.createHandler ∨
    updateExceptDispatch e = none := by
  unfold updateExceptDispatch
  cases h : e.isException <;> simp
